import Mathlib

/-!
Shallow embedding of `src/main.py` (FastAPI ToDo + Pomodoro app).

Modelling conventions:
- The two module-level globals `tasks` and `pomodoro_sessions` are bundled
  into an explicit `AppState` that every operation threads.
- HTTP endpoints become functions returning `Except PyError α`; raising
  `HTTPException` or an uncaught Python exception becomes `Except.error`.
- Timestamps (`datetime`) are integers counting seconds; `timedelta(minutes=25)`
  is `25 * 60` seconds.  Each call to `datetime.now()` is a separate clock
  reading, passed in as an explicit argument in source order.
- Python attribute access on a missing pydantic field raises `AttributeError`;
  it is modelled by `Except`-valued accessors (`Task.title`, `TaskCreate.id`).
-/

namespace ToDoList

/-- The failure modes observable from the handlers in `main.py`:
`HTTPException(400, "Task already exists")` and
`HTTPException(400, "Task title must be unique")` are `duplicateTitle`,
`HTTPException(404, ...)` is `notFound`,
`HTTPException(400, "Active Pomodoro session already exists ...")` is
`activeSessionExists`; `validationError` is a pydantic validation failure and
`attributeError` a Python `AttributeError`. -/
inductive PyError where
  | duplicateTitle
  | notFound
  | activeSessionExists
  | validationError
  | attributeError
deriving DecidableEq

/-- The pydantic model `Task` of `main.py`: fields `id`, `name`, `description`,
`status`.  Note that the field holding the task's text is `name`, not `title`. -/
structure Task where
  id : String
  name : String
  description : Option String
  status : String
deriving DecidableEq

/-- The pydantic request model `TaskCreate`: fields `title` and `description`. -/
structure TaskCreate where
  title : String
  description : Option String
deriving DecidableEq

/-- The pydantic model `PomodoroSession`. -/
structure PomodoroSession where
  task_id : String
  start_time : Int
  end_time : Int
  completed : Bool
deriving DecidableEq

/-- The two module-level collections `tasks` and `pomodoro_sessions`. -/
structure AppState where
  tasks : List Task
  pomodoro_sessions : List PomodoroSession
deriving DecidableEq

/-- The stores at process start: `tasks = []`, `pomodoro_sessions = []`. -/
def emptyState : AppState := ⟨[], []⟩

/-- `Task` declares no field `title`; in Python, reading `t.title` on a `Task`
raises `AttributeError`. -/
def Task.title (_ : Task) : Except PyError String :=
  .error .attributeError

/-- `TaskCreate` declares no field `id`; reading `task.id` on a `TaskCreate`
raises `AttributeError`. -/
def TaskCreate.id (_ : TaskCreate) : Except PyError String :=
  .error .attributeError

/-- Python's `any` over a generator whose body may raise: short-circuits on the
first `true`, propagates the first exception. -/
def anyE (p : α → Except PyError Bool) : List α → Except PyError Bool
  | [] => .ok false
  | x :: xs => do
    if (← p x) then pure true else anyE p xs

/-- Boundary validation that FastAPI/pydantic performs on a `TaskCreate` body:
`title: Field(..., min_length=3, max_length=100)`,
`description: Field(None, max_length=300)`. -/
def valid_description : Option String → Bool
  | none => true
  | some d => decide (d.length ≤ 300)

/-- Constructing the request model `TaskCreate(title=..., description=...)`:
succeeds iff the `Field` constraints hold, otherwise pydantic raises a
validation error (FastAPI's 422). -/
def validate_TaskCreate (title : String) (description : Option String) :
    Except PyError TaskCreate :=
  if 3 ≤ title.length ∧ title.length ≤ 100 ∧ valid_description description = true then
    .ok ⟨title, description⟩
  else
    .error .validationError

/-- The `status` pattern on the `Task` model: `^(TODO|IN_PROGRESS|DONE)$`. -/
def valid_status (s : String) : Bool :=
  s == "TODO" || s == "IN_PROGRESS" || s == "DONE"

/-- `POST /tasks` (`create_task` in `main.py`):
`any(t.title == task.title for t in tasks)` reads `t.title` on a `Task`, which
raises `AttributeError` as soon as `tasks` is nonempty; when `tasks` is empty
the `any` is `False` and `Task(title=..., description=..., status="TODO")` is
evaluated, which raises a pydantic validation error because the required field
`name` is not supplied (the unknown keyword `title` is ignored).  So the
append `tasks.append(new_task)` is never reached. -/
def create_task (st : AppState) (task : TaskCreate) :
    Except PyError (Task × AppState) := do
  let dup ← anyE (fun t => do pure ((← t.title) == task.title)) st.tasks
  if dup then
    .error .duplicateTitle
  else
    .error .validationError

/-- `GET /tasks` (`get_tasks`): `if status:` is Python truthiness, so `None`
and the empty string both mean "no filter". -/
def get_tasks (st : AppState) (status : Option String) :
    Except PyError (List Task) :=
  match status with
  | some s =>
    if s != "" then .ok (st.tasks.filter (fun t => t.status == s))
    else .ok st.tasks
  | none => .ok st.tasks

/-- `GET /tasks/{task_id}` (`get_task`): first task with matching id, else 404. -/
def get_task (st : AppState) (task_id : String) : Except PyError Task :=
  match st.tasks.find? (fun t => t.id == task_id) with
  | some task => .ok task
  | none => .error .notFound

/-- The duplicate check of `update_task`:
`any(other.title == task.title and other.id != task.id for other in tasks)`.
Evaluation order per Python: `other.title` first (raises `AttributeError` on a
`Task`), then the comparison, then `task.id` (raises on a `TaskCreate`). -/
def update_dup_check (tasks : List Task) (task : TaskCreate) :
    Except PyError Bool :=
  anyE (fun other => do
    let otitle ← other.title
    if otitle == task.title then do
      let tid ← task.id
      pure (other.id != tid)
    else
      pure false) tasks

/-- The `for t in tasks` loop of `update_task`.  The first list argument is the
full `tasks` collection (used by the inner duplicate check), the last is the
suffix still to be scanned.  In the branch where the id matches, the duplicate
check is evaluated over the full collection; were it to return `false`, the
assignment `t.title = task.title` would run next, which pydantic rejects since
`Task` declares no field `title` (that branch is unreachable anyway: the
collection is nonempty there, so the check itself already raises). -/
def update_task_loop (st : AppState) (task_id : String) (task : TaskCreate) :
    List Task → Except PyError (Task × AppState)
  | [] => .error .notFound
  | t :: rest =>
    if t.id == task_id then do
      let dup ← update_dup_check st.tasks task
      if dup then .error .duplicateTitle
      else .error .attributeError
    else
      update_task_loop st task_id task rest

/-- `PUT /tasks/{task_id}` (`update_task` in `main.py`). -/
def update_task (st : AppState) (task_id : String) (task : TaskCreate) :
    Except PyError (Task × AppState) :=
  update_task_loop st task_id task st.tasks

/-- `DELETE /tasks/{task_id}` (`delete_task`):
`tasks = [task for task in tasks if task.id != task_id]`, then
`return {"message": "Task deleted"}` — it cannot fail. -/
def delete_task (st : AppState) (task_id : String) : String × AppState :=
  ("Task deleted", { st with tasks := st.tasks.filter (fun t => t.id != task_id) })

/-- The session-activity test used by `create_pomodoro` and `stop_pomodoro`:
`session.task_id == x and not session.completed`. -/
def is_active_for (task_id : String) (s : PomodoroSession) : Bool :=
  s.task_id == task_id && !s.completed

/-- `POST /pomodoro` (`create_pomodoro`): finds the first task with matching
id (404 otherwise); 400 if an uncompleted session for it exists; otherwise
builds and appends a session.  The source calls `datetime.now()` twice —
once for `start_time` and once (plus 25 minutes) for `end_time` — so the two
clock readings `now1` and `now2` are separate arguments, in call order. -/
def create_pomodoro (st : AppState) (task_id : String) (now1 now2 : Int) :
    Except PyError (PomodoroSession × AppState) :=
  match st.tasks.find? (fun t => t.id == task_id) with
  | none => .error .notFound
  | some task =>
    if st.pomodoro_sessions.any (is_active_for task.id) then
      .error .activeSessionExists
    else
      let new_session : PomodoroSession :=
        { task_id := task.id
          start_time := now1
          end_time := now2 + 25 * 60
          completed := false }
      .ok (new_session,
           { st with pomodoro_sessions := st.pomodoro_sessions ++ [new_session] })

/-- The `for session in pomodoro_sessions` loop of `stop_pomodoro`: returns the
collection with the first active session for `task_id` marked completed, or
`none` when there is no such session. -/
def stop_first (task_id : String) : List PomodoroSession → Option (List PomodoroSession)
  | [] => none
  | s :: rest =>
    if is_active_for task_id s then
      some ({ s with completed := true } :: rest)
    else
      (stop_first task_id rest).map (s :: ·)

/-- `POST /pomodoro/{task_id}/stop` (`stop_pomodoro`): completes the first
active session for `task_id` in collection order, 404 when none exists. -/
def stop_pomodoro (st : AppState) (task_id : String) :
    Except PyError (String × AppState) :=
  match stop_first task_id st.pomodoro_sessions with
  | some sessions =>
    .ok ("Pomodoro session stopped", { st with pomodoro_sessions := sessions })
  | none => .error .notFound

/-- The dict update `stats[session.task_id] = stats.get(session.task_id, 0) + 1`
on an insertion-ordered dict, modelled as an association list: an existing key
is bumped in place, a new key is appended. -/
def stats_bump : List (String × Nat) → String → List (String × Nat)
  | [], task_id => [(task_id, 1)]
  | (k, v) :: rest, task_id =>
    if k == task_id then (k, v + 1) :: rest
    else (k, v) :: stats_bump rest task_id

/-- One iteration of the stats loop: completed sessions bump their task's
count, other sessions are skipped. -/
def stats_step (d : List (String × Nat)) (s : PomodoroSession) : List (String × Nat) :=
  if s.completed then stats_bump d s.task_id else d

/-- One term of the `total_time_spent` sum:
`(session.end_time - session.start_time).total_seconds()` for completed
sessions, nothing otherwise. -/
def total_step (total : Int) (s : PomodoroSession) : Int :=
  if s.completed then total + (s.end_time - s.start_time) else total

/-- `GET /pomodoro/stats` (`get_pomodoro_stats`): one pass building the
per-task counts of completed sessions, and one pass summing
`(end_time - start_time).total_seconds()` over completed sessions.  The source
reads the collections and mutates nothing, so the embedding is a pure function
of the state. -/
def get_pomodoro_stats (st : AppState) : List (String × Nat) × Int :=
  (st.pomodoro_sessions.foldl stats_step [],
   st.pomodoro_sessions.foldl total_step 0)

/-- Number of completed sessions recorded for `task_id`. -/
def completed_count (st : AppState) (task_id : String) : Nat :=
  st.pomodoro_sessions.countP (fun s => s.completed && s.task_id == task_id)

/-- Spec-level: some stored task has this id. -/
def task_exists (st : AppState) (task_id : String) : Prop :=
  ∃ t ∈ st.tasks, t.id = task_id

/-- Spec-level: some stored session for this task is still uncompleted. -/
def active_session_exists (st : AppState) (task_id : String) : Prop :=
  ∃ s ∈ st.pomodoro_sessions, s.task_id = task_id ∧ s.completed = false

/-- Spec invariant: at most one uncompleted session per task at any time. -/
def at_most_one_active (st : AppState) : Prop :=
  ∀ task_id, st.pomodoro_sessions.countP (is_active_for task_id) ≤ 1

/-- One successful mutating request.  Failing requests raise before mutating
anything (every `Except.error` path above is reached before any write), so the
state is unchanged there and only successful requests need steps. -/
inductive Step : AppState → AppState → Prop
  | create_task_ok (st : AppState) (req : TaskCreate) (t : Task) (st' : AppState) :
      create_task st req = .ok (t, st') → Step st st'
  | update_task_ok (st : AppState) (task_id : String) (req : TaskCreate)
      (t : Task) (st' : AppState) :
      update_task st task_id req = .ok (t, st') → Step st st'
  | delete_task_ok (st : AppState) (task_id : String) :
      Step st (delete_task st task_id).2
  | create_pomodoro_ok (st : AppState) (task_id : String) (now1 now2 : Int)
      (s : PomodoroSession) (st' : AppState) :
      create_pomodoro st task_id now1 now2 = .ok (s, st') → Step st st'
  | stop_pomodoro_ok (st : AppState) (task_id : String) (msg : String) (st' : AppState) :
      stop_pomodoro st task_id = .ok (msg, st') → Step st st'

/-- States reachable from the empty stores by any sequence of requests. -/
def Reachable (st : AppState) : Prop :=
  Relation.ReflTransGen Step emptyState st

/-- Sample task used for concrete witnesses and counterexamples. -/
def exTask : Task := ⟨"a", "Read book", none, "TODO"⟩

/-- Second sample task, for frame witnesses. -/
def exTask2 : Task := ⟨"b", "Write report", none, "TODO"⟩

example : create_task emptyState ⟨"Write report", none⟩ = .error .validationError := rfl

example : create_task ⟨[exTask], []⟩ ⟨"Write report", none⟩ = .error .attributeError := rfl

example : update_task ⟨[exTask], []⟩ "a" ⟨"Read book", none⟩ = .error .attributeError := rfl

example : update_task emptyState "a" ⟨"Read book", none⟩ = .error .notFound := rfl

example :
    create_pomodoro ⟨[exTask], []⟩ "a" 0 1 =
      .ok (⟨"a", 0, 1501, false⟩, ⟨[exTask], [⟨"a", 0, 1501, false⟩]⟩) := rfl

example : stop_pomodoro ⟨[exTask], []⟩ "a" = .error .notFound := rfl

example :
    stop_pomodoro ⟨[exTask], [⟨"a", 0, 1500, false⟩]⟩ "a" =
      .ok ("Pomodoro session stopped", ⟨[exTask], [⟨"a", 0, 1500, true⟩]⟩) := rfl

example :
    get_pomodoro_stats ⟨[], [⟨"a", 0, 1500, true⟩, ⟨"b", 0, 7, true⟩, ⟨"a", 2, 9, true⟩,
      ⟨"c", 0, 5, false⟩]⟩ = ([("a", 2), ("b", 1)], 1514) := rfl

example : get_tasks ⟨[exTask], []⟩ (some "BANANA") = .ok [] := rfl

example : get_tasks ⟨[exTask], []⟩ (some "") = .ok [exTask] := rfl

example : delete_task ⟨[exTask], []⟩ "a" = ("Task deleted", ⟨[], []⟩) := rfl

/-! ### Shared lemmas -/

/-- `create_task` always raises: with an empty store the `Task(...)` call is
reached and fails (required `name` missing); with a nonempty store the
duplicate check reads `t.title` and raises first. -/
theorem create_task_is_error (st : AppState) (task : TaskCreate) :
    ∃ e, create_task st task = .error e := by
  obtain ⟨ts, ss⟩ := st
  cases ts with
  | nil => exact ⟨.validationError, rfl⟩
  | cons t rest => exact ⟨.attributeError, rfl⟩

/-- The duplicate check of `update_task` raises `AttributeError` on any
nonempty collection (it reads `other.title` on the first element). -/
theorem update_dup_check_cons (t : Task) (rest : List Task) (task : TaskCreate) :
    update_dup_check (t :: rest) task = .error .attributeError := rfl

theorem update_task_loop_is_error (st : AppState) (task_id : String) (task : TaskCreate)
    (hdup : update_dup_check st.tasks task = .error .attributeError) :
    ∀ l, update_task_loop st task_id task l = .error .notFound ∨
      update_task_loop st task_id task l = .error .attributeError := by
  intro l
  induction l with
  | nil => exact Or.inl rfl
  | cons t rest ih =>
    by_cases h : (t.id == task_id) = true
    · right
      simp [update_task_loop, h, hdup, bind, Except.bind]
    · simpa [update_task_loop, h] using ih

/-- `update_task` never succeeds: either the id is not found (404), or the
duplicate check raises `AttributeError` on the nonempty collection. -/
theorem update_task_is_error (st : AppState) (task_id : String) (task : TaskCreate) :
    ∃ e, update_task st task_id task = .error e := by
  obtain ⟨ts, ss⟩ := st
  cases ts with
  | nil => exact ⟨.notFound, rfl⟩
  | cons t rest =>
    rcases update_task_loop_is_error ⟨t :: rest, ss⟩ task_id task rfl (t :: rest) with h | h
    · exact ⟨.notFound, h⟩
    · exact ⟨.attributeError, h⟩

/-- A single successful request starting from empty stores leaves both stores
empty: task creation always raises, so no task and hence no session can ever
be stored. -/
theorem step_nil {st st' : AppState}
    (h : st.tasks = [] ∧ st.pomodoro_sessions = []) (hs : Step st st') :
    st'.tasks = [] ∧ st'.pomodoro_sessions = [] := by
  obtain ⟨ht, hp⟩ := h
  cases hs with
  | create_task_ok req t st2 heq =>
    obtain ⟨e, he⟩ := create_task_is_error st req
    rw [he] at heq
    exact Except.noConfusion heq
  | update_task_ok task_id req t st2 heq =>
    obtain ⟨e, he⟩ := update_task_is_error st task_id req
    rw [he] at heq
    exact Except.noConfusion heq
  | delete_task_ok task_id =>
    constructor
    · simp [delete_task, ht]
    · simp [delete_task, hp]
  | create_pomodoro_ok task_id now1 now2 s st2 heq =>
    simp [create_pomodoro, ht] at heq
  | stop_pomodoro_ok task_id msg st2 heq =>
    simp [stop_pomodoro, hp, stop_first] at heq

/-- In every reachable state both stores are empty (the app cannot create a
task, so nothing is ever stored). -/
theorem reachable_nil {st : AppState} (h : Reachable st) :
    st.tasks = [] ∧ st.pomodoro_sessions = [] := by
  induction h with
  | refl => exact ⟨rfl, rfl⟩
  | tail _ hs ih => exact step_nil ih hs

/-- `start` when no stored task has the requested id: 404. -/
theorem create_pomodoro_not_found {st : AppState} {task_id : String} (now1 now2 : Int)
    (h : ¬ task_exists st task_id) :
    create_pomodoro st task_id now1 now2 = .error .notFound := by
  have hf : st.tasks.find? (fun t => t.id == task_id) = none := by
    rw [List.find?_eq_none]
    intro x hx hbeq
    exact h ⟨x, hx, by simpa using hbeq⟩
  simp [create_pomodoro, hf]

/-- `start` when the task exists but an uncompleted session for it is stored:
400 `ActiveSessionExists`. -/
theorem create_pomodoro_active {st : AppState} {task_id : String} (now1 now2 : Int)
    (ht : task_exists st task_id) (ha : active_session_exists st task_id) :
    create_pomodoro st task_id now1 now2 = .error .activeSessionExists := by
  have hsome : (st.tasks.find? (fun t => t.id == task_id)).isSome = true := by
    rw [List.find?_isSome]
    obtain ⟨t, htm, hid⟩ := ht
    exact ⟨t, htm, by simpa using hid⟩
  obtain ⟨task, hfind⟩ := Option.isSome_iff_exists.mp hsome
  have hid : task.id = task_id := by simpa using List.find?_some hfind
  have hany : st.pomodoro_sessions.any (is_active_for task.id) = true := by
    rw [hid, List.any_eq_true]
    obtain ⟨s, hs, h1, h2⟩ := ha
    exact ⟨s, hs, by simp [is_active_for, h1, h2]⟩
  simp only [create_pomodoro, hfind]
  rw [if_pos hany]

/-- `start` when the task exists and no uncompleted session for it is stored:
appends a fresh session built from the two clock readings. -/
theorem create_pomodoro_success {st : AppState} {task_id : String} (now1 now2 : Int)
    (ht : task_exists st task_id) (ha : ¬ active_session_exists st task_id) :
    create_pomodoro st task_id now1 now2 =
      .ok (⟨task_id, now1, now2 + 25 * 60, false⟩,
           ⟨st.tasks, st.pomodoro_sessions ++ [⟨task_id, now1, now2 + 25 * 60, false⟩]⟩) := by
  have hsome : (st.tasks.find? (fun t => t.id == task_id)).isSome = true := by
    rw [List.find?_isSome]
    obtain ⟨t, htm, hid⟩ := ht
    exact ⟨t, htm, by simpa using hid⟩
  obtain ⟨task, hfind⟩ := Option.isSome_iff_exists.mp hsome
  have hid : task.id = task_id := by simpa using List.find?_some hfind
  have hany : st.pomodoro_sessions.any (is_active_for task.id) = false := by
    rw [hid]
    have hne : ¬ st.pomodoro_sessions.any (is_active_for task_id) = true := by
      rw [List.any_eq_true]
      rintro ⟨s, hs, hsa⟩
      simp [is_active_for] at hsa
      exact ha ⟨s, hs, hsa.1, hsa.2⟩
    simpa using hne
  simp only [create_pomodoro, hfind]
  rw [if_neg (by simp [hany]), hid]

/-- Inversion: a successful `start` means the task existed, and pins down the
created session and the new state. -/
theorem create_pomodoro_ok_inv {st : AppState} {task_id : String} {now1 now2 : Int}
    {s : PomodoroSession} {st' : AppState}
    (h : create_pomodoro st task_id now1 now2 = .ok (s, st')) :
    task_exists st task_id ∧ s = ⟨task_id, now1, now2 + 25 * 60, false⟩ ∧
      st' = ⟨st.tasks, st.pomodoro_sessions ++ [s]⟩ := by
  by_cases ht : task_exists st task_id
  · by_cases ha : active_session_exists st task_id
    · rw [create_pomodoro_active now1 now2 ht ha] at h
      exact Except.noConfusion h
    · rw [create_pomodoro_success now1 now2 ht ha] at h
      simp only [Except.ok.injEq, Prod.mk.injEq] at h
      obtain ⟨hs, hst⟩ := h
      subst hs
      exact ⟨ht, rfl, hst.symm⟩
  · rw [create_pomodoro_not_found now1 now2 ht] at h
    exact Except.noConfusion h

/-- A session just marked completed is no longer active. -/
theorem is_active_for_completed (task_id : String) (s : PomodoroSession) :
    is_active_for task_id { s with completed := true } = false := by
  simp [is_active_for]

/-- `stop_first` finds nothing in a collection with no active session. -/
theorem stop_first_eq_none {task_id : String} {l : List PomodoroSession}
    (h : ∀ s ∈ l, is_active_for task_id s = false) :
    stop_first task_id l = none := by
  induction l with
  | nil => rfl
  | cons s rest ih =>
    have hs := h s (by simp)
    simp [stop_first, hs, ih fun x hx => h x (by simp [hx])]

/-- `stop_first` completes exactly the first active session. -/
theorem stop_first_append {task_id : String} (l₁ : List PomodoroSession)
    (s : PomodoroSession) (l₂ : List PomodoroSession)
    (h₁ : ∀ x ∈ l₁, is_active_for task_id x = false)
    (hs : is_active_for task_id s = true) :
    stop_first task_id (l₁ ++ s :: l₂) =
      some (l₁ ++ { s with completed := true } :: l₂) := by
  induction l₁ with
  | nil => simp [stop_first, hs]
  | cons x rest ih =>
    have hx := h₁ x (by simp)
    simp [stop_first, hx, ih fun y hy => h₁ y (by simp [hy])]

/-- Inversion for `stop_first`: success decomposes the collection at the first
active session. -/
theorem stop_first_some_inv {task_id : String} :
    ∀ {l l' : List PomodoroSession}, stop_first task_id l = some l' →
    ∃ l₁ s l₂, l = l₁ ++ s :: l₂ ∧ l' = l₁ ++ { s with completed := true } :: l₂ ∧
      (∀ x ∈ l₁, is_active_for task_id x = false) ∧ is_active_for task_id s = true := by
  intro l
  induction l with
  | nil => intro l' h; exact Option.noConfusion h
  | cons x rest ih =>
    intro l' h
    by_cases hx : is_active_for task_id x = true
    · simp only [stop_first, if_pos hx, Option.some.injEq] at h
      exact ⟨[], x, rest, by simp, by simp [h.symm], by simp, hx⟩
    · simp only [stop_first, if_neg hx, Option.map_eq_some'] at h
      obtain ⟨a, ha, rfl⟩ := h
      obtain ⟨l₁, s, l₂, rfl, rfl, h1, h2⟩ := ih ha
      refine ⟨x :: l₁, s, l₂, rfl, rfl, ?_, h2⟩
      intro y hy
      rcases List.mem_cons.mp hy with rfl | hy'
      · simpa using hx
      · exact h1 y hy'

/-- `stop` when no active session for the task is stored: 404. -/
theorem stop_pomodoro_not_found {st : AppState} {task_id : String}
    (h : ¬ active_session_exists st task_id) :
    stop_pomodoro st task_id = .error .notFound := by
  have hsf : stop_first task_id st.pomodoro_sessions = none := by
    apply stop_first_eq_none
    intro s hs
    cases hcomp : is_active_for task_id s with
    | false => rfl
    | true =>
      simp [is_active_for] at hcomp
      exact absurd ⟨s, hs, hcomp.1, hcomp.2⟩ h
  simp [stop_pomodoro, hsf]

/-- `stop` on the collection decomposed at its first active session for the
task: that session is completed in place, everything else is untouched. -/
theorem stop_pomodoro_first_active {st : AppState} {task_id : String}
    {l₁ : List PomodoroSession} {s : PomodoroSession} {l₂ : List PomodoroSession}
    (hdec : st.pomodoro_sessions = l₁ ++ s :: l₂)
    (h₁ : ∀ x ∈ l₁, is_active_for task_id x = false)
    (hs : is_active_for task_id s = true) :
    stop_pomodoro st task_id =
      .ok ("Pomodoro session stopped", ⟨st.tasks, l₁ ++ { s with completed := true } :: l₂⟩) := by
  have hsf := stop_first_append l₁ s l₂ h₁ hs
  rw [← hdec] at hsf
  simp [stop_pomodoro, hsf]

/-- Inversion for a successful `stop`. -/
theorem stop_pomodoro_ok_inv {st : AppState} {task_id msg : String} {st' : AppState}
    (h : stop_pomodoro st task_id = .ok (msg, st')) :
    msg = "Pomodoro session stopped" ∧
    ∃ l₁ s l₂, st.pomodoro_sessions = l₁ ++ s :: l₂ ∧
      st' = ⟨st.tasks, l₁ ++ { s with completed := true } :: l₂⟩ ∧
      (∀ x ∈ l₁, is_active_for task_id x = false) ∧ is_active_for task_id s = true := by
  unfold stop_pomodoro at h
  cases hsf : stop_first task_id st.pomodoro_sessions with
  | none => rw [hsf] at h; exact Except.noConfusion h
  | some l' =>
    rw [hsf] at h
    simp only [Except.ok.injEq, Prod.mk.injEq] at h
    obtain ⟨hmsg, hst⟩ := h
    obtain ⟨l₁, s, l₂, hdec, rfl, h1, h2⟩ := stop_first_some_inv hsf
    exact ⟨hmsg.symm, l₁, s, l₂, hdec, hst.symm, h1, h2⟩

/-- Converse view of the activity check for single sessions. -/
theorem is_active_for_eq_false_of_not {task_id : String} {x : PomodoroSession}
    (h : ¬ (x.task_id = task_id ∧ x.completed = false)) :
    is_active_for task_id x = false := by
  cases hc : is_active_for task_id x with
  | false => rfl
  | true =>
    simp [is_active_for] at hc
    exact absurd ⟨hc.1, hc.2⟩ h

/-- Unfolding lemmas for the stats loop steps. -/
theorem stats_step_completed {s : PomodoroSession} (hc : s.completed = true)
    (d : List (String × Nat)) : stats_step d s = stats_bump d s.task_id := by
  simp [stats_step, hc]

theorem stats_step_skipped {s : PomodoroSession} (hc : s.completed = false)
    (d : List (String × Nat)) : stats_step d s = d := by
  simp [stats_step, hc]

theorem total_step_completed {s : PomodoroSession} (hc : s.completed = true)
    (a : Int) : total_step a s = a + (s.end_time - s.start_time) := by
  simp [total_step, hc]

theorem total_step_skipped {s : PomodoroSession} (hc : s.completed = false)
    (a : Int) : total_step a s = a := by
  simp [total_step, hc]

/-- Looking a key up after a `stats_bump`: the bumped key gains one, every
other key is untouched. -/
theorem stats_bump_lookup (d : List (String × Nat)) (k task_id : String) :
    (stats_bump d k).lookup task_id =
      if k = task_id then some ((d.lookup task_id).getD 0 + 1)
      else d.lookup task_id := by
  induction d with
  | nil =>
    by_cases h : k = task_id
    · subst h
      simp [stats_bump, List.lookup]
    · have hb : (task_id == k) = false := by simp [Ne.symm h]
      simp [stats_bump, List.lookup, h, hb]
  | cons kv rest ih =>
    obtain ⟨k', v⟩ := kv
    by_cases hkk : k' = k
    · by_cases htk : task_id = k'
      · simp [stats_bump, List.lookup, hkk, htk]
      · have h1 : (k' == k) = true := by simp [hkk]
        have h2 : (task_id == k') = false := by simp [htk]
        have h3 : ¬ k = task_id := fun hc => htk (hkk.trans hc).symm
        simp [stats_bump, List.lookup, h1, h2, h3]
    · have h1 : (k' == k) = false := by simp [hkk]
      by_cases htk : task_id = k'
      · have h2 : (task_id == k') = true := by simp [htk]
        have h3 : ¬ k = task_id := fun hc => hkk (hc.trans htk).symm
        simp [stats_bump, List.lookup, h1, h2, h3]
      · have h2 : (task_id == k') = false := by simp [htk]
        simp [stats_bump, List.lookup, h1, h2, ih]

/-- The count pass, value view: each key ends at its starting value plus the
number of completed sessions carrying it. -/
theorem stats_fold_getD (l : List PomodoroSession) :
    ∀ (d : List (String × Nat)) (task_id : String),
    ((l.foldl stats_step d).lookup task_id).getD 0 =
      (d.lookup task_id).getD 0 +
        l.countP (fun s => s.completed && s.task_id == task_id) := by
  induction l with
  | nil =>
    intro d task_id
    simp
  | cons s rest ih =>
    intro d task_id
    by_cases hc : s.completed = true
    · by_cases hid : s.task_id = task_id
      · have hpred : (s.completed && s.task_id == task_id) = true := by simp [hc, hid]
        rw [List.foldl_cons, stats_step_completed hc,
          List.countP_cons_of_pos (fun x => x.completed && x.task_id == task_id) rest hpred, ih, stats_bump_lookup, if_pos hid]
        simp only [Option.getD_some]
        omega
      · have hpred : (s.completed && s.task_id == task_id) = false := by simp [hid]
        rw [List.foldl_cons, stats_step_completed hc,
          List.countP_cons_of_neg (fun x => x.completed && x.task_id == task_id) rest (by simp [hpred]), ih, stats_bump_lookup,
          if_neg hid]
    · have hc' : s.completed = false := by simpa using hc
      have hpred : (s.completed && s.task_id == task_id) = false := by simp [hc']
      rw [List.foldl_cons, stats_step_skipped hc',
        List.countP_cons_of_neg (fun x => x.completed && x.task_id == task_id) rest (by simp [hpred]), ih]

/-- The count pass, absence view: a key is absent from the result exactly when
it was absent at the start and no completed session carries it. -/
theorem stats_fold_none (l : List PomodoroSession) :
    ∀ (d : List (String × Nat)) (task_id : String),
    ((l.foldl stats_step d).lookup task_id = none ↔
      (d.lookup task_id = none ∧
       l.countP (fun s => s.completed && s.task_id == task_id) = 0)) := by
  induction l with
  | nil =>
    intro d task_id
    simp
  | cons s rest ih =>
    intro d task_id
    by_cases hc : s.completed = true
    · by_cases hid : s.task_id = task_id
      · have hpred : (s.completed && s.task_id == task_id) = true := by simp [hc, hid]
        rw [List.foldl_cons, stats_step_completed hc,
          List.countP_cons_of_pos (fun x => x.completed && x.task_id == task_id) rest hpred, ih, stats_bump_lookup, if_pos hid]
        simp
      · have hpred : (s.completed && s.task_id == task_id) = false := by simp [hid]
        rw [List.foldl_cons, stats_step_completed hc,
          List.countP_cons_of_neg (fun x => x.completed && x.task_id == task_id) rest (by simp [hpred]), ih, stats_bump_lookup,
          if_neg hid]
    · have hc' : s.completed = false := by simpa using hc
      have hpred : (s.completed && s.task_id == task_id) = false := by simp [hc']
      rw [List.foldl_cons, stats_step_skipped hc',
        List.countP_cons_of_neg (fun x => x.completed && x.task_id == task_id) rest (by simp [hpred]), ih]

/-- The time pass, started from any accumulator: it adds the sum of
`end_time - start_time` over the completed sessions. -/
theorem stats_fold_total (l : List PomodoroSession) :
    ∀ (a : Int),
    l.foldl total_step a =
      a + ((l.filter (fun s => s.completed)).map
        (fun s => s.end_time - s.start_time)).sum := by
  induction l with
  | nil =>
    intro a
    simp
  | cons s rest ih =>
    intro a
    by_cases hc : s.completed = true
    · rw [List.foldl_cons, total_step_completed hc, ih,
        List.filter_cons_of_pos hc, List.map_cons, List.sum_cons]
      ring
    · have hc' : s.completed = false := by simpa using hc
      rw [List.foldl_cons, total_step_skipped hc', ih,
        List.filter_cons_of_neg hc]

/-! ### Claim theorems -/

/-- C1: the claim says that a create request whose title matches no existing
task succeeds and returns a TODO task.  On the code it does not: in the empty
store, creating the fresh title "Write report" reaches
`Task(title=..., description=..., status="TODO")`, which raises a pydantic
validation error because the required field `name` is never supplied, so no
task is created and nothing is appended. -/
theorem create_task_fails_on_fresh_title :
    create_task emptyState ⟨"Write report", none⟩ = .error .validationError := rfl

/-- C2 (counterexample to "end_time equals its start_time plus exactly
25 minutes"): `create_pomodoro` reads the clock twice (`datetime.now()` for
`start_time`, a second `datetime.now() + timedelta(minutes=25)` for
`end_time`).  With clock readings 0 and 1 the created session has
`end_time = 1501 ≠ 0 + 1500 = start_time + 25 minutes`. -/
theorem create_pomodoro_end_time_counterexample :
    create_pomodoro ⟨[exTask], []⟩ "a" 0 1 =
      .ok (⟨"a", 0, 1501, false⟩, ⟨[exTask], [⟨"a", 0, 1501, false⟩]⟩) ∧
    ¬ ((1501 : Int) = 0 + 25 * 60) :=
  ⟨rfl, by decide⟩

/-- C2 (amended): start(task_id) fails with NotFound if no task with that id
exists; fails with ActiveSessionExists if an uncompleted session with that
task_id exists; otherwise it appends and returns a new session with
completed = false, start_time the first clock reading, and end_time the second
clock reading plus exactly 25 minutes (so end_time = start_time + 25 minutes
exactly when the two readings coincide). -/
theorem create_pomodoro_spec (st : AppState) (task_id : String) (now1 now2 : Int) :
    (¬ task_exists st task_id →
      create_pomodoro st task_id now1 now2 = .error .notFound) ∧
    (task_exists st task_id → active_session_exists st task_id →
      create_pomodoro st task_id now1 now2 = .error .activeSessionExists) ∧
    (task_exists st task_id → ¬ active_session_exists st task_id →
      create_pomodoro st task_id now1 now2 =
        .ok (⟨task_id, now1, now2 + 25 * 60, false⟩,
             ⟨st.tasks, st.pomodoro_sessions ++ [⟨task_id, now1, now2 + 25 * 60, false⟩]⟩)) :=
  ⟨fun h => create_pomodoro_not_found now1 now2 h,
   fun ht ha => create_pomodoro_active now1 now2 ht ha,
   fun ht ha => create_pomodoro_success now1 now2 ht ha⟩

/-- Witness for the amended C2 theorem: all three branches at concrete inputs. -/
theorem create_pomodoro_spec_witness :
    create_pomodoro ⟨[exTask], []⟩ "b" 2 3 = .error .notFound ∧
    create_pomodoro ⟨[exTask], [⟨"a", 0, 1500, false⟩]⟩ "a" 2 3 =
      .error .activeSessionExists ∧
    create_pomodoro ⟨[exTask], []⟩ "a" 2 3 =
      .ok (⟨"a", 2, 3 + 25 * 60, false⟩, ⟨[exTask], [⟨"a", 2, 3 + 25 * 60, false⟩]⟩) := by
  refine ⟨(create_pomodoro_spec ⟨[exTask], []⟩ "b" 2 3).1 ?_,
          (create_pomodoro_spec ⟨[exTask], [⟨"a", 0, 1500, false⟩]⟩ "a" 2 3).2.1 ?_ ?_,
          (create_pomodoro_spec ⟨[exTask], []⟩ "a" 2 3).2.2 ?_ ?_⟩
  · rintro ⟨t, ht, hid⟩
    simp [exTask] at ht
    subst ht
    exact absurd hid (by decide)
  · exact ⟨exTask, by simp, rfl⟩
  · exact ⟨⟨"a", 0, 1500, false⟩, by simp, rfl, rfl⟩
  · exact ⟨exTask, by simp, rfl⟩
  · rintro ⟨s, hs, -, -⟩
    simp at hs

/-- C3: the claim says updating a task to its own current title succeeds.  On
the code it does not: once the id is found, the duplicate check
`any(other.title == task.title and other.id != task.id for other in tasks)`
reads `other.title` on a stored `Task`, which has no such field, so the
request raises `AttributeError` instead of returning the updated task. -/
theorem update_task_crashes_on_own_title :
    update_task ⟨[exTask], []⟩ "a" ⟨"Read book", none⟩ = .error .attributeError := rfl

/-- C4: in every reachable state there is at most one uncompleted session per
task_id; a second start without an intervening stop fails with
ActiveSessionExists; and after a successful stop a new start for that task
succeeds again. -/
theorem single_active_session_invariant :
    (∀ st, Reachable st → at_most_one_active st) ∧
    (∀ st task_id now1 now2 now1' now2' s st',
      create_pomodoro st task_id now1 now2 = .ok (s, st') →
      create_pomodoro st' task_id now1' now2' = .error .activeSessionExists) ∧
    (∀ st task_id msg st' now1 now2,
      at_most_one_active st → task_exists st task_id →
      stop_pomodoro st task_id = .ok (msg, st') →
      ∃ s st'', create_pomodoro st' task_id now1 now2 = .ok (s, st'')) := by
  refine ⟨?_, ?_, ?_⟩
  · intro st h
    obtain ⟨-, hp⟩ := reachable_nil h
    intro task_id
    simp [hp]
  · intro st task_id now1 now2 now1' now2' s st' h
    obtain ⟨ht, rfl, rfl⟩ := create_pomodoro_ok_inv h
    exact create_pomodoro_active now1' now2' ht
      ⟨⟨task_id, now1, now2 + 25 * 60, false⟩, by simp, rfl, rfl⟩
  · intro st task_id msg st' now1 now2 hinv ht hstop
    obtain ⟨-, l₁, s, l₂, hdec, rfl, h1, h2⟩ := stop_pomodoro_ok_inv hstop
    have hcount := hinv task_id
    rw [hdec] at hcount
    simp only [List.countP_append, List.countP_cons, h2, if_true] at hcount
    have hl2 : l₂.countP (is_active_for task_id) = 0 := by omega
    have hna : ¬ active_session_exists
        ⟨st.tasks, l₁ ++ { s with completed := true } :: l₂⟩ task_id := by
      rintro ⟨x, hx, hx1, hx2⟩
      have hxact : is_active_for task_id x = true := by simp [is_active_for, hx1, hx2]
      rcases List.mem_append.mp hx with hxl | hxr
      · rw [h1 x hxl] at hxact
        exact Bool.noConfusion hxact
      · rcases List.mem_cons.mp hxr with rfl | hxl2
        · exact Bool.noConfusion hx2
        · exact List.countP_eq_zero.mp hl2 x hxl2 hxact
    exact ⟨_, _, create_pomodoro_success now1 now2 ht hna⟩

/-- Witness for C4: the invariant at the (reachable) empty state; a second
start failing on a concrete state holding one active session; a start
succeeding after a concrete stop. -/
theorem single_active_session_invariant_witness :
    at_most_one_active emptyState ∧
    create_pomodoro ⟨[exTask], [⟨"a", 0, 1500, false⟩]⟩ "a" 7 7 =
      .error .activeSessionExists ∧
    (∃ s st'', create_pomodoro ⟨[exTask], [⟨"a", 0, 1500, true⟩]⟩ "a" 9 9 =
      .ok (s, st'')) := by
  refine ⟨single_active_session_invariant.1 emptyState Relation.ReflTransGen.refl,
          single_active_session_invariant.2.1 ⟨[exTask], []⟩ "a" 0 0 7 7
            ⟨"a", 0, 1500, false⟩ ⟨[exTask], [⟨"a", 0, 1500, false⟩]⟩ rfl,
          single_active_session_invariant.2.2 ⟨[exTask], [⟨"a", 0, 1500, false⟩]⟩ "a"
            "Pomodoro session stopped" ⟨[exTask], [⟨"a", 0, 1500, true⟩]⟩ 9 9
            ?_ ⟨exTask, by simp, rfl⟩ rfl⟩
  intro task_id
  show List.countP (is_active_for task_id) [⟨"a", 0, 1500, false⟩] ≤ 1
  rw [List.countP_cons, List.countP_nil]
  split <;> omega

/-- C6: stop(task_id) fails with NotFound when no uncompleted session with
that task_id exists; otherwise it completes the first uncompleted session for
that task_id in collection order and returns the confirmation message. -/
theorem stop_pomodoro_claim (st : AppState) (task_id : String) :
    (¬ active_session_exists st task_id →
      stop_pomodoro st task_id = .error .notFound) ∧
    (∀ l₁ s l₂, st.pomodoro_sessions = l₁ ++ s :: l₂ →
      (∀ x ∈ l₁, ¬ (x.task_id = task_id ∧ x.completed = false)) →
      s.task_id = task_id → s.completed = false →
      stop_pomodoro st task_id =
        .ok ("Pomodoro session stopped",
             ⟨st.tasks, l₁ ++ { s with completed := true } :: l₂⟩)) := by
  constructor
  · exact stop_pomodoro_not_found
  · intro l₁ s l₂ hdec h₁ hs1 hs2
    exact stop_pomodoro_first_active hdec
      (fun x hx => is_active_for_eq_false_of_not (h₁ x hx))
      (by simp [is_active_for, hs1, hs2])

/-- Witness for C6: stop on a state with no session at all 404s; stop on a
state with a completed session followed by two active ones completes exactly
the first active one. -/
theorem stop_pomodoro_claim_witness :
    stop_pomodoro ⟨[exTask], []⟩ "a" = .error .notFound ∧
    stop_pomodoro ⟨[], [⟨"a", 0, 5, true⟩, ⟨"a", 0, 5, false⟩, ⟨"a", 1, 6, false⟩]⟩ "a" =
      .ok ("Pomodoro session stopped",
           ⟨[], [⟨"a", 0, 5, true⟩, ⟨"a", 0, 5, true⟩, ⟨"a", 1, 6, false⟩]⟩) := by
  constructor
  · exact (stop_pomodoro_claim ⟨[exTask], []⟩ "a").1 (by rintro ⟨x, hx, -, -⟩; simp at hx)
  · exact (stop_pomodoro_claim
        ⟨[], [⟨"a", 0, 5, true⟩, ⟨"a", 0, 5, false⟩, ⟨"a", 1, 6, false⟩]⟩ "a").2
      [⟨"a", 0, 5, true⟩] ⟨"a", 0, 5, false⟩ [⟨"a", 1, 6, false⟩] rfl
      (by decide) rfl rfl

/-- The Bool description check, in spec terms. -/
theorem valid_description_iff (d : Option String) :
    valid_description d = true ↔ ∀ x, d = some x → x.length ≤ 300 := by
  cases d <;> simp [valid_description]

/-- C5: the stats mapping contains exactly the task_ids with at least one
completed session, each mapped to its count of completed sessions (ids with
zero completed sessions are absent), and total_time_spent is the sum of
`end_time - start_time` over all completed sessions.  The operation is a pure
function of the state, so it modifies neither collection. -/
theorem get_pomodoro_stats_claim (st : AppState) (task_id : String) :
    ((get_pomodoro_stats st).1.lookup task_id =
      if completed_count st task_id = 0 then none
      else some (completed_count st task_id)) ∧
    (get_pomodoro_stats st).2 =
      ((st.pomodoro_sessions.filter (fun s => s.completed)).map
        (fun s => s.end_time - s.start_time)).sum := by
  constructor
  · show (st.pomodoro_sessions.foldl stats_step []).lookup task_id = _
    simp only [completed_count]
    by_cases h0 : st.pomodoro_sessions.countP
        (fun s => s.completed && s.task_id == task_id) = 0
    · rw [if_pos h0]
      exact (stats_fold_none st.pomodoro_sessions [] task_id).mpr ⟨rfl, h0⟩
    · rw [if_neg h0]
      have hgd := stats_fold_getD st.pomodoro_sessions [] task_id
      cases hl : (st.pomodoro_sessions.foldl stats_step []).lookup task_id with
      | none =>
        obtain ⟨-, hcnt⟩ := (stats_fold_none st.pomodoro_sessions [] task_id).mp hl
        exact absurd hcnt h0
      | some y =>
        rw [hl] at hgd
        simp only [Option.getD_some, List.lookup_nil, Option.getD_none,
          Nat.zero_add] at hgd
        rw [hgd]
  · show st.pomodoro_sessions.foldl total_step 0 = _
    rw [stats_fold_total]
    simp

/-- C7: delete(id) is idempotent and unconditionally successful: deleting
twice gives the same message and the same final state as deleting once, and
its confirmation message is always "Task deleted". -/
theorem delete_task_idempotent (st : AppState) (task_id : String) :
    delete_task (delete_task st task_id).2 task_id = delete_task st task_id ∧
    (delete_task st task_id).1 = "Task deleted" := by
  constructor
  · simp [delete_task, List.filter_filter]
  · rfl

/-- C8 counterexample: the claim says a status value supplied to the list
filter must be one of the enum, violations being rejected with
ValidationError.  The code declares the query parameter as a plain optional
string: filtering a store holding a TODO task by the non-enum status "BANANA"
succeeds and returns an ordinary (here empty) list, not a validation error. -/
theorem get_tasks_status_not_validated :
    get_tasks ⟨[exTask], []⟩ (some "BANANA") = .ok [] ∧
    get_tasks ⟨[exTask], []⟩ (some "BANANA") ≠ .error .validationError := by
  refine ⟨rfl, fun h => ?_⟩
  rw [show get_tasks ⟨[exTask], []⟩ (some "BANANA") = .ok [] from rfl] at h
  exact Except.noConfusion h

/-- C8 (amended): title and description are validated at the boundary —
a request body passes iff 3 ≤ len(title) ≤ 100 and len(description) ≤ 300,
and is otherwise rejected with a validation error before reaching the store —
and in every reachable state every stored task satisfies those constraints;
but the status supplied to the list operation is NOT validated: get_tasks
accepts any string and merely filters, returning a sub-list of the store. -/
theorem validation_boundary (title : String) (description : Option String) :
    (validate_TaskCreate title description = .error .validationError ↔
      ¬ (3 ≤ title.length ∧ title.length ≤ 100 ∧
         ∀ d, description = some d → d.length ≤ 300)) ∧
    (validate_TaskCreate title description = .ok ⟨title, description⟩ ↔
      (3 ≤ title.length ∧ title.length ≤ 100 ∧
       ∀ d, description = some d → d.length ≤ 300)) ∧
    (∀ st, Reachable st → ∀ t ∈ st.tasks,
      3 ≤ t.name.length ∧ t.name.length ≤ 100 ∧
      ∀ d, t.description = some d → d.length ≤ 300) ∧
    (∀ st s, ∃ l, get_tasks st (some s) = .ok l ∧ l.Sublist st.tasks) := by
  have hiff : (3 ≤ title.length ∧ title.length ≤ 100 ∧
      valid_description description = true) ↔
      (3 ≤ title.length ∧ title.length ≤ 100 ∧
       ∀ d, description = some d → d.length ≤ 300) := by
    constructor
    · rintro ⟨h1, h2, h3⟩
      exact ⟨h1, h2, (valid_description_iff description).mp h3⟩
    · rintro ⟨h1, h2, h3⟩
      exact ⟨h1, h2, (valid_description_iff description).mpr h3⟩
  refine ⟨?_, ?_, ?_, ?_⟩
  · constructor
    · intro h hC
      rw [validate_TaskCreate, if_pos (hiff.mpr hC)] at h
      exact Except.noConfusion h
    · intro hC
      rw [validate_TaskCreate, if_neg (fun c => hC (hiff.mp c))]
  · constructor
    · intro h
      by_cases c : (3 ≤ title.length ∧ title.length ≤ 100 ∧
          valid_description description = true)
      · exact hiff.mp c
      · rw [validate_TaskCreate, if_neg c] at h
        exact Except.noConfusion h
    · intro hC
      rw [validate_TaskCreate, if_pos (hiff.mpr hC)]
  · intro st h t htm
    obtain ⟨htasks, -⟩ := reachable_nil h
    rw [htasks] at htm
    exact absurd htm (List.not_mem_nil t)
  · intro st s
    simp only [get_tasks]
    split
    · exact ⟨_, rfl, List.filter_sublist _⟩
    · exact ⟨_, rfl, List.Sublist.refl _⟩

/-- Witness for the amended C8 theorem: a too-short title is rejected, a valid
body passes, the stored-task constraint holds at the (reachable) empty state,
and filtering by an arbitrary status string returns a sub-list. -/
theorem validation_boundary_witness :
    validate_TaskCreate "ab" none = .error .validationError ∧
    validate_TaskCreate "Read book" none = .ok ⟨"Read book", none⟩ ∧
    (∀ t ∈ emptyState.tasks, 3 ≤ t.name.length ∧ t.name.length ≤ 100 ∧
      ∀ d, t.description = some d → d.length ≤ 300) ∧
    (∃ l, get_tasks ⟨[exTask], []⟩ (some "BANANA") = .ok l ∧
      l.Sublist [exTask]) := by
  refine ⟨(validation_boundary "ab" none).1.mpr ?_,
          (validation_boundary "Read book" none).2.1.mpr ⟨?_, ?_, ?_⟩,
          (validation_boundary "xyz" none).2.2.1 emptyState Relation.ReflTransGen.refl,
          (validation_boundary "xyz" none).2.2.2 ⟨[exTask], []⟩ "BANANA"⟩
  · rintro ⟨h1, -, -⟩
    revert h1
    decide
  · decide
  · decide
  · intro d h
    exact Option.noConfusion h

/-- C9: no exposed operation changes a task's status: a successfully created
task has status TODO, a successful update preserves every task's status, and
in every reachable state filtering by status DONE returns the empty list.
(On this code the first two parts hold vacuously, because create and update
requests never return successfully at all.) -/
theorem status_never_changes :
    (∀ st req t st', create_task st req = .ok (t, st') → t.status = "TODO") ∧
    (∀ st task_id req t st', update_task st task_id req = .ok (t, st') →
      st'.tasks.map Task.status = st.tasks.map Task.status) ∧
    (∀ st, Reachable st → get_tasks st (some "DONE") = .ok []) := by
  refine ⟨?_, ?_, ?_⟩
  · intro st req t st' h
    obtain ⟨e, he⟩ := create_task_is_error st req
    rw [he] at h
    exact Except.noConfusion h
  · intro st task_id req t st' h
    obtain ⟨e, he⟩ := update_task_is_error st task_id req
    rw [he] at h
    exact Except.noConfusion h
  · intro st h
    obtain ⟨htasks, -⟩ := reachable_nil h
    simp [get_tasks, htasks]

/-- Witness for C9: applied at the (reachable) empty state, where the DONE
filter indeed returns the empty list. -/
theorem status_never_changes_witness :
    get_tasks emptyState (some "DONE") = .ok [] :=
  status_never_changes.2.2 emptyState Relation.ReflTransGen.refl

/-- C10: delete(id) removes every task with that id, keeps every other task in
the original relative order, and never touches the session collection. -/
theorem delete_task_frame (st : AppState) (task_id : String) :
    ((delete_task st task_id).2.pomodoro_sessions = st.pomodoro_sessions) ∧
    (∀ t ∈ (delete_task st task_id).2.tasks, t.id ≠ task_id) ∧
    (delete_task st task_id).2.tasks.Sublist st.tasks ∧
    (∀ t ∈ st.tasks, t.id ≠ task_id → t ∈ (delete_task st task_id).2.tasks) := by
  refine ⟨rfl, ?_, List.filter_sublist _, ?_⟩
  · intro t ht
    have hmem := (List.mem_filter.mp ht).2
    simpa using hmem
  · intro t ht hne
    exact List.mem_filter.mpr ⟨ht, by simpa using hne⟩

/-- Witness for C10: deleting task "a" from a concrete two-task store leaves
the session (which references "a") in place and keeps the other task. -/
theorem delete_task_frame_witness :
    (delete_task ⟨[exTask, exTask2], [⟨"a", 0, 1500, false⟩]⟩ "a").2.pomodoro_sessions =
      [⟨"a", 0, 1500, false⟩] ∧
    exTask2 ∈ (delete_task ⟨[exTask, exTask2], [⟨"a", 0, 1500, false⟩]⟩ "a").2.tasks := by
  refine ⟨(delete_task_frame ⟨[exTask, exTask2], [⟨"a", 0, 1500, false⟩]⟩ "a").1, ?_⟩
  exact (delete_task_frame ⟨[exTask, exTask2], [⟨"a", 0, 1500, false⟩]⟩ "a").2.2.2
    exTask2 (by simp) (by decide)

end ToDoList
